import Mathlib

/-!
Verification of the dive-plan narrative generator (plannernotes.c)

A shallow embedding, in Lean 4, of the algorithmic core of
src/core/plannernotes.c: the waypoint-traversal loop of add_plan_to_notes
(leg reduction, gas-change display, ICD bookkeeping, last-bottom-waypoint
tracking), the per-cylinder gas-consumption / minimum-gas section, the pO2
warning pass, and the top-level control flow.  String/HTML formatting is
abstracted into structured rows; external collaborators that are not part
of the source under verification (unit conversion, gas-law helpers,
isobaric_counterdiffusion, fill_pressures) are either passed in as
function parameters of the embedding or modelled from the specification,
as noted on each definition.
-/

namespace PlannerNotes

/-- A gas mix: O2 and He fractions in permille, as stored in a cylinder.
N2 is implicitly 1000 - o2 - he.  (We always use explicit permille values;
the C convention that o2 = 0 denotes air is not needed by any claim.) -/
structure Gasmix where
  o2 : Int
  he : Int
deriving DecidableEq

/-- N2 permille of a mix, 1000 - o2 - he. -/
def Gasmix.n2 (g : Gasmix) : Int := 1000 - g.o2 - g.he

/-- Modelled from the spec: gasmix_distance (external to the source file).
Two mixes are "distant" (a gas change) iff any fraction differs. -/
def gasmixDiffers (a b : Gasmix) : Bool := a.o2 != b.o2 || a.he != b.he

/-- A waypoint (struct divedatapoint): absolute time offset in seconds,
depth in mm, cylinder index, setpoint in mbar (0 = open circuit) and the
entered flag (manually placed by the user). -/
structure DP where
  time : Int
  depth : Int
  cylinderid : Nat
  setpoint : Int
  entered : Bool
deriving DecidableEq

/-- Cylinder usage role (enum cylinderuse). -/
inductive CylUse where
  | ocGas
  | diluent
  | oxygen
  | notUsed
deriving DecidableEq

/-- A cylinder (cylinder_t): gas mix, start/end pressures in mbar, nominal
size in mliter, accumulated consumption figures in mliter, usage role. -/
structure Cylinder where
  mix : Gasmix
  start_mbar : Int
  end_mbar : Int
  size_mliter : Int
  gas_used : Int
  deco_gas_used : Int
  use : CylUse
deriving DecidableEq

instance : Inhabited Gasmix := ⟨⟨0, 0⟩⟩
instance : Inhabited Cylinder := ⟨⟨⟨0, 0⟩, 0, 0, 0, 0, 0, .notUsed⟩⟩

/-- Modelled from the spec: cylinder_none (external helper); a cylinder is
"none" when all its numeric data is zero, i.e. it is not in use.  The
consumption loop stops at the first such cylinder. -/
def cylinderNone (c : Cylinder) : Bool :=
  c.size_mliter == 0 && c.start_mbar == 0 && c.end_mbar == 0 &&
  c.gas_used == 0 && c.deco_gas_used == 0

/-- C lrint: round to nearest integer.  Modelled as floor (q + 1/2); the
half-to-even behaviour of the C library is irrelevant at the inputs used. -/
def lrint (q : ℚ) : Int := ⌊q + 1 / 2⌋

/-- Dive mode (enum divemode_t). -/
inductive Divemode where
  | oc
  | ccr
  | pscr
  | freedive
deriving DecidableEq

/-- Deco model (decoMode()). -/
inductive DecoModel where
  | buehlmann
  | vpmb
  | recreational
deriving DecidableEq

/-- The isobaric-counterdiffusion deltas (struct icd_data), permille. -/
structure IcdData where
  dHe : Int
  dN2 : Int
deriving DecidableEq

/-- Modelled from the spec: isobaric_counterdiffusion (external to the
source file) fills the icd_data deltas between old and new mix:
dHe = He(new) - He(old), dN2 = N2(new) - N2(old). -/
def icdDataOf (oldMix newMix : Gasmix) : IcdData :=
  ⟨newMix.he - oldMix.he, newMix.n2 - oldMix.n2⟩

/-- Modelled from the spec: the boolean result of
isobaric_counterdiffusion; a violation occurs when 5 x dN2 > -dHe. -/
def isobaricCounterdiffusion (oldMix newMix : Gasmix) : Bool :=
  let d := icdDataOf oldMix newMix
  5 * d.dN2 > -d.dHe

/-- One ICD table entry as produced by add_icd_entry (two HTML rows with a
shared colour condition).  Fields mirror the printed values:
runtime minute, the two gas names, the permille deltas as percentages,
the allowed dN2 (0.2 x (-dHe/10)), partial-pressure deltas in bar at the
ambient pressure of the change, and the colour condition
(red exactly when 5 x dN2 > -dHe). -/
structure IcdDisplay where
  time_min : Int
  gasFrom : Gasmix
  gasTo : Gasmix
  dHe : Int
  dN2 : Int
  dHe_pct : ℚ
  dN2_pct : ℚ
  maxdN2_pct : ℚ
  ppHe_bar : ℚ
  ppN2_bar : ℚ
  maxdN2_bar : ℚ
  violationRed : Bool
deriving DecidableEq

/-- Embedding of add_icd_entry (plannernotes.c lines 42-63): formats one
ICD result as a structured table entry.  The colour of the dN2 cells is
"red" exactly when (5 * icdvalues->dN2) > -icdvalues->dHe. -/
def add_icd_entry (icdvalues : IcdData) (time_seconds : Int)
    (ambientpressure_mbar : Int) (gas_from gas_to : Gasmix) : IcdDisplay :=
  { time_min := (time_seconds + 30) / 60
    gasFrom := gas_from
    gasTo := gas_to
    dHe := icdvalues.dHe
    dN2 := icdvalues.dN2
    dHe_pct := (icdvalues.dHe : ℚ) / 10
    dN2_pct := (icdvalues.dN2 : ℚ) / 10
    maxdN2_pct := (2 : ℚ) / 10 * (-(icdvalues.dHe : ℚ) / 10)
    ppHe_bar := (ambientpressure_mbar : ℚ) * (icdvalues.dHe : ℚ) / 1000000
    ppN2_bar := (ambientpressure_mbar : ℚ) * (icdvalues.dN2 : ℚ) / 1000000
    maxdN2_bar := (ambientpressure_mbar : ℚ) * (-(icdvalues.dHe : ℚ)) / 5000000
    violationRed := 5 * icdvalues.dN2 > -icdvalues.dHe }

/-- The inputs of add_plan_to_notes that are ambient in the C code:
preference flags and values (prefs.*), the dive's mode, the deco model,
the cylinder table, the externally supplied unit/gas-law collaborators
(depth_to_mbar, depth_to_bar, depth_to_atm, gas_compressibility_factor,
isothermal_pressure, treated as opaque pure functions per the spec), and
the CNS/OTU figures computed by update_cylinder_related_info. -/
structure Ctx where
  verbatim_plan : Bool
  display_runtime : Bool
  display_duration : Bool
  display_transitions : Bool
  display_variations : Bool
  bottompo2 : Int
  decopo2 : Int
  sacfactor : Int
  problemsolvingtime : Int
  bottomsac : Int
  divemode : Divemode
  decoModel : DecoModel
  cylinders : List Cylinder
  depth_mbar : Int → Int
  depth_bar : Int → ℚ
  depth_atm : Int → ℚ
  zFactor : Gasmix → ℚ → ℚ
  isothermalPressure : Gasmix → ℚ → ℚ → ℚ → ℚ
  cns : Int
  maxcns : Int
  otu : Int

/-- dive->cylinder[i] (array access; out-of-range yields the default). -/
def Ctx.cyl (ctx : Ctx) (i : Nat) : Cylinder := ctx.cylinders.getD i default

/-- The gas mix breathed at a waypoint: dive->cylinder[dp->cylinderid].gasmix. -/
def Ctx.mixAt (ctx : Ctx) (dp : DP) : Gasmix := (ctx.cyl dp.cylinderid).mix

/-- gaschange_after (line 204): there is a real next waypoint and its mix
or setpoint differs from the current one. -/
def gaschangeAfter (ctx : Ctx) (dp : DP) (nextdp : Option DP) : Bool :=
  match nextdp with
  | some n => gasmixDiffers (ctx.mixAt dp) (ctx.mixAt n) || dp.setpoint != n.setpoint
  | none => false

/-- gaschange_before (line 205): the current mix or setpoint differs from
the last printed mix/setpoint. -/
def gaschangeBefore (lastprintgasmix : Gasmix) (lastprintsetpoint : Int)
    (ctx : Ctx) (dp : DP) : Bool :=
  gasmixDiffers lastprintgasmix (ctx.mixAt dp) || lastprintsetpoint != dp.setpoint

/-- The per-segment symbol printed in a collapsed-plan row. -/
inductive SegSym where
  | ascent
  | descent
  | stayc
  | decostop
deriving DecidableEq

/-- One output row of the plan narrative, with formatting abstracted to
the structured values that the C code prints: verbatim "Transition"/"Stay"
lines, verbatim "Switch gas" lines, and collapsed-plan table rows with an
optional trailing/leading gas-change annotation (mix and setpoint). -/
inductive Row where
  | transition (depth_mm : Int) (runtime_s : Int) (sp : Option Int)
  | stay (depth_mm : Int) (runtime_s : Int) (sp : Option Int)
  | switchGas (gas : Gasmix) (sp : Option Int)
  | leg (sym : SegSym) (depth_mm : Int) (runtime_s : Int)
      (annot : Option (Gasmix × Option Int))
deriving DecidableEq

/-- The mutable locals of the waypoint loop in add_plan_to_notes
(lines 75-90), plus the accumulated structured output (rows, ICD entries)
and a flag recording that the loop evaluated nextdp->entered with nextdp
null (line 218, undefined behaviour in the C program). -/
structure LoopState where
  lastdepth : Int := 0
  lasttime : Int := 0
  lastsetpoint : Int := -1
  newdepth : Int := 0
  lastprintdepth : Int := 0
  lastprintsetpoint : Int := -1
  lastprintgasmix : Gasmix := ⟨-1, -1⟩
  lastentered : Bool := true
  lastbottomdp : Option DP := none
  icdwarning : Bool := false
  nullDeref : Bool := false
  rows : List Row := []
  icd : List IcdDisplay := []

/-- Record one ICD result: set icdwarning if isobaric_counterdiffusion
reports a violation, and append the add_icd_entry table entry
(the C pattern at lines 327-330, 345-348 and 371-374). -/
def recordIcd (st : LoopState) (time_s amb_mbar : Int)
    (oldMix newMix : Gasmix) : LoopState :=
  { st with
    icdwarning := st.icdwarning || isobaricCounterdiffusion oldMix newMix
    icd := st.icd ++ [add_icd_entry (icdDataOf oldMix newMix) time_s amb_mbar oldMix newMix] }

/-- The depth of the lookahead waypoint (only consulted under a
nonnull guard in the C code; 0 otherwise). -/
def ndepthOf (nextdp : Option DP) : Int :=
  match nextdp with
  | some n => n.depth
  | none => 0

/-- The entered flag of the lookahead waypoint (guarded in the C code). -/
def nenteredOf (nextdp : Option DP) : Bool :=
  match nextdp with
  | some n => n.entered
  | none => false

/-- The setpoint of the lookahead waypoint (guarded in the C code). -/
def nsetpointOf (nextdp : Option DP) : Int :=
  match nextdp with
  | some n => n.setpoint
  | none => 0

/-- The mix of the lookahead waypoint; the C initialises newgasmix to a
zeroed struct when there is no next waypoint. -/
def newGasmixOf (ctx : Ctx) (nextdp : Option DP) : Gasmix :=
  match nextdp with
  | some n => ctx.mixAt n
  | none => ⟨0, 0⟩

/-- The setpoint display of a row: shown only when nonzero. -/
def spOf (s : Int) : Option Int := if s ≠ 0 then some s else none

/-- Line 218: store the pointer to the last entered datapoint for the
minimum-gas calculation.  The C reads nextdp->entered whenever
dp->entered holds, even when nextdp is NULL; the nullDeref flag records
that undefined behaviour. -/
def trackLastBottom (st : LoopState) (dp : DP) (nextdp : Option DP) : LoopState :=
  { st with
    nullDeref := st.nullDeref || (dp.entered && nextdp.isNone)
    lastbottomdp := match nextdp with
      | some n => if dp.entered ∧ ¬n.entered then some dp else st.lastbottomdp
      | none => st.lastbottomdp }

/-- Lines 222-269: the verbatim-plan transition/stay lines. -/
def verbatimRows (ctx : Ctx) (st : LoopState) (dp : DP)
    (nextdp inext : Option DP) : LoopState :=
  if dp.depth ≠ st.lastprintdepth then
    let st' :=
      if ctx.display_transitions ∨ dp.entered ∨ inext.isNone ∨
          (gaschangeAfter ctx dp nextdp ∧ inext.isSome ∧ dp.depth ≠ ndepthOf nextdp) then
        { st with rows := st.rows ++ [.transition dp.depth dp.time (spOf dp.setpoint)] }
      else st
    { st' with newdepth := dp.depth, lasttime := dp.time }
  else
    if (nextdp.isSome ∧ dp.depth ≠ ndepthOf nextdp) ∨ gaschangeAfter ctx dp nextdp then
      { st with rows := st.rows ++ [.stay dp.depth dp.time (spOf dp.setpoint)],
                newdepth := dp.depth, lasttime := dp.time }
    else st

/-- Lines 363-383: the verbatim-plan "Switch gas" line; isascent is the
ascent flag computed at the top of the iteration (lastdepth is unchanged
by the row phase). -/
def verbatimSwitch (ctx : Ctx) (st : LoopState) (dp : DP)
    (nextdp : Option DP) : LoopState :=
  if gaschangeAfter ctx dp nextdp then
    let st' :=
      if st.lastsetpoint ≥ 0 then
        if nsetpointOf nextdp ≠ 0 then
          { st with rows := st.rows ++ [.switchGas (newGasmixOf ctx nextdp) (some (nsetpointOf nextdp))] }
        else
          let st'' :=
            if dp.depth < st.lastdepth ∧ st.lastprintgasmix.he > 0 then
              recordIcd st dp.time (ctx.depth_mbar dp.depth) st.lastprintgasmix
                (newGasmixOf ctx nextdp)
            else st
          { st'' with rows := st''.rows ++ [.switchGas (newGasmixOf ctx nextdp) none] }
      else st
    { st' with lastprintgasmix := newGasmixOf ctx nextdp }
  else st

/-- The collapsed-plan row emission condition (lines 287-292). -/
abbrev collapsedEmit (ctx : Ctx) (st : LoopState) (dp : DP)
    (nextdp inext : Option DP) : Prop :=
  ctx.display_transitions ∨ dp.entered ∨ inext.isNone ∨
  (nextdp.isSome ∧ dp.depth ≠ ndepthOf nextdp) ∨
  (¬(dp.depth < st.lastdepth) ∧
    gaschangeBefore st.lastprintgasmix st.lastprintsetpoint ctx dp ∧
    nextdp.isSome ∧ dp.depth ≠ ndepthOf nextdp) ∨
  (gaschangeAfter ctx dp nextdp ∧ st.lastentered) ∨
  (gaschangeAfter ctx dp nextdp ∧ ¬(dp.depth < st.lastdepth)) ∨
  (dp.depth < st.lastdepth ∧ gaschangeAfter ctx dp nextdp ∧
    nextdp.isSome ∧ dp.depth ≠ ndepthOf nextdp) ∨
  (st.lastentered ∧ ¬dp.entered)

/-- The condition under which a gas change is displayed at the end of the
current collapsed-plan segment (line 319). -/
abbrev trailingChangeShown (ctx : Ctx) (st : LoopState) (dp : DP)
    (nextdp inext : Option DP) : Prop :=
  (dp.depth < st.lastdepth ∨ dp.entered) ∧ gaschangeAfter ctx dp nextdp ∧
  inext.isSome ∧ nextdp.isSome ∧ (dp.depth ≠ ndepthOf nextdp ∨ nenteredOf nextdp)

/-- Lines 316-357: the gas-change annotation of a collapsed-plan row,
with the associated ICD bookkeeping and last-printed-gas updates. -/
def collapsedAnnotate (ctx : Ctx) (st : LoopState) (dp : DP)
    (nextdp inext : Option DP) : LoopState × Option (Gasmix × Option Int) :=
  if trailingChangeShown ctx st dp nextdp inext then
    if dp.setpoint ≠ 0 then
      ({ st with lastprintsetpoint := nsetpointOf nextdp,
                 lastprintgasmix := newGasmixOf ctx nextdp },
       some (newGasmixOf ctx nextdp, some (nsetpointOf nextdp)))
    else
      let st' :=
        if dp.depth < st.lastdepth ∧ st.lastprintgasmix.he > 0 then
          recordIcd st dp.time (ctx.depth_mbar dp.depth) st.lastprintgasmix
            (newGasmixOf ctx nextdp)
        else st
      ({ st' with lastprintsetpoint := nsetpointOf nextdp,
                  lastprintgasmix := newGasmixOf ctx nextdp },
       some (newGasmixOf ctx nextdp, none))
  else if gaschangeBefore st.lastprintgasmix st.lastprintsetpoint ctx dp then
    if dp.setpoint ≠ 0 then
      ({ st with lastprintsetpoint := dp.setpoint, lastprintgasmix := ctx.mixAt dp },
       some (ctx.mixAt dp, some dp.setpoint))
    else
      let st' :=
        if st.lastprintgasmix.he > 0 then
          recordIcd st st.lasttime (ctx.depth_mbar dp.depth) st.lastprintgasmix (ctx.mixAt dp)
        else st
      ({ st' with lastprintsetpoint := dp.setpoint, lastprintgasmix := ctx.mixAt dp },
       some (ctx.mixAt dp, none))
  else (st, none)

/-- Lines 270-361: the collapsed-plan row for one waypoint. -/
def collapsedPhase (ctx : Ctx) (st : LoopState) (dp : DP)
    (nextdp inext : Option DP) : LoopState :=
  if collapsedEmit ctx st dp nextdp inext then
    let sym : SegSym :=
      if dp.depth < st.lastdepth then .ascent
      else if dp.depth > st.lastdepth then .descent
      else if dp.entered then .stayc
      else .decostop
    let p := collapsedAnnotate ctx st dp nextdp inext
    { p.1 with rows := p.1.rows ++ [.leg sym dp.depth dp.time p.2],
               newdepth := dp.depth, lasttime := dp.time }
  else st

/-- Lines 384-387: the tail updates of one loop iteration. -/
def tailUpdate (st : LoopState) (dp : DP) : LoopState :=
  { st with lastprintdepth := st.newdepth, lastdepth := dp.depth,
            lastsetpoint := dp.setpoint, lastentered := dp.entered }

/-- The first skip condition (line 207): a leg devoid of anything useful. -/
abbrev skipUseless (ctx : Ctx) (st : LoopState) (dp : DP) (nextdp : Option DP) : Prop :=
  ¬dp.entered ∧ nextdp.isSome ∧ dp.depth ≠ st.lastdepth ∧
  ndepthOf nextdp ≠ dp.depth ∧
  ¬gaschangeBefore st.lastprintgasmix st.lastprintsetpoint ctx dp ∧
  ¬gaschangeAfter ctx dp nextdp

/-- The second skip condition (line 214): under 10 s since the last
reported time at unchanged depth, unless a gas change follows, with the
immediate successor dp->next at a different depth. -/
abbrev skipShort (ctx : Ctx) (st : LoopState) (dp : DP) (nextdp inext : Option DP) : Prop :=
  (dp.time - st.lasttime < 10 ∧ st.lastdepth = dp.depth) ∧
  ¬(gaschangeAfter ctx dp nextdp ∧ inext.isSome ∧ dp.depth ≠ ndepthOf inext)

/-- One iteration of the do-while waypoint loop (lines 187-387), for a
waypoint dp with nonzero time.  nextdp is the next waypoint with nonzero
time (the C lookahead of lines 194-201), inext is the immediate successor
dp->next.  Returns (continued, state): continued is true when one of the
two skip conditions (lines 207-215) fired, in which case the state is
unchanged and the tail updates (lines 384-387) do not run. -/
def loopBody (ctx : Ctx) (st : LoopState) (dp : DP)
    (nextdp inext : Option DP) : Bool × LoopState :=
  if skipUseless ctx st dp nextdp then (true, st)
  else if skipShort ctx st dp nextdp inext then (true, st)
  else
    let st := trackLastBottom st dp nextdp
    let st :=
      if ctx.verbatim_plan then
        verbatimSwitch ctx (verbatimRows ctx st dp nextdp inext) dp nextdp
      else
        collapsedPhase ctx st dp nextdp inext
    (false, tailUpdate st dp)

/-- Fuel-driven traversal of the waypoint list: the do-while loop of
lines 187-388.  dp advances to nextdp (the next nonzero-time waypoint)
except that a waypoint with time 0 is passed over one step at a time
(line 195).  One list element is consumed per step, so fuel equal to the
list length suffices. -/
def runLoopAux (ctx : Ctx) : Nat → LoopState → List DP → LoopState
  | 0, st, _ => st
  | _ + 1, st, [] => st
  | fuel + 1, st, dp :: rest =>
    if dp.time = 0 then
      runLoopAux ctx fuel st rest
    else
      let rest' := rest.dropWhile (fun x => x.time == 0)
      let st' := (loopBody ctx st dp rest'.head? rest.head?).2
      runLoopAux ctx fuel st' rest'

/-- The waypoint loop over a whole waypoint list. -/
def runLoop (ctx : Ctx) (dps : List DP) : LoopState :=
  runLoopAux ctx dps.length {} dps

/-- The warning strings a cylinder row can carry (the single warning
buffer of lines 450, 467-476 and 513-515; the if/else chain writes at
most one of them). -/
inductive CylWarn where
  | moreGasThanAvailable
  | notEnoughReserve
  | minGasExceedsStart
deriving DecidableEq

/-- One per-cylinder result of the gas-consumption loop: the optional
warning, the minimum-gas figures when the minimum-gas branch ran
(required pressure written to lastbottomdp->minimum_gas, and the margin
printed as mingas_d_pressure), and whether the mingas row was shown
(start pressure above requirement). -/
structure CylResult where
  warning : Option CylWarn := none
  mingas_mbar : Option Int := none
  mingas_d_pressure : Option Int := none
  mingas_shown : Bool := false
deriving DecidableEq

/-- remaining_gas (line 459): the compressibility-adjusted gas volume at
end pressure, in mliter. -/
def remainingGas (ctx : Ctx) (cyl : Cylinder) : Int :=
  lrint ((cyl.end_mbar : ℚ) * (cyl.size_mliter : ℚ) / 1000
    / ctx.zFactor cyl.mix ((cyl.end_mbar : ℚ) / 1000))

/-- deco_pressure_mbar (lines 460-461): the pressure surplus needed to
hold the remaining gas plus the ascent (deco) gas, minus end pressure. -/
def decoPressureMbar (ctx : Ctx) (cyl : Cylinder) : ℚ :=
  ctx.isothermalPressure cyl.mix 1
    ((remainingGas ctx cyl : ℚ) + (cyl.deco_gas_used : ℚ)) (cyl.size_mliter : ℚ) * 1000
    - (cyl.end_mbar : ℚ)

/-- The reserve shortfall test of lines 472-473: the remaining volume at
end pressure is below the ascent gas requirement. -/
abbrev reserveLacking (ctx : Ctx) (cyl : Cylinder) : Prop :=
  (cyl.end_mbar : ℚ) / 1000 * (cyl.size_mliter : ℚ)
    / ctx.zFactor cyl.mix ((cyl.end_mbar : ℚ) / 1000) < (cyl.deco_gas_used : ℚ)

/-- The minimum-gas volume of lines 485-487:
sacfactor/100 x problemsolvingtime x bottomsac x ambient bar at the last
bottom depth, plus sacfactor/100 x the cylinder's deco gas used. -/
def mingasVolume (ctx : Ctx) (cyl : Cylinder) (lb : DP) : Int :=
  lrint ((ctx.sacfactor : ℚ) / 100 * (ctx.problemsolvingtime : ℚ)
    * (ctx.bottomsac : ℚ) * ctx.depth_bar lb.depth
    + (ctx.sacfactor : ℚ) / 100 * (cyl.deco_gas_used : ℚ))

/-- The minimum-gas pressure of lines 489-490: the isothermal gas-law
pressure of the minimum-gas volume at the cylinder size, in mbar. -/
def mingasPressure (ctx : Ctx) (cyl : Cylinder) (lb : DP) : Int :=
  lrint (ctx.isothermalPressure cyl.mix 1
    (mingasVolume ctx cyl lb : ℚ) (cyl.size_mliter : ℚ) * 1000)

/-- The printed minimum-gas margin of line 494:
end pressure + deco_pressure_mbar - minimum gas pressure. -/
def mingasMargin (ctx : Ctx) (cyl : Cylinder) (lb : DP) : Int :=
  lrint ((cyl.end_mbar : ℚ) + decoPressureMbar ctx cyl
    - (mingasPressure ctx cyl lb : ℚ))

/-- The body of the gas-consumption loop (lines 447-537) for cylinder
gasidx, given the lastbottomdp identified by the waypoint loop.  Mirrors
the C control flow: pressure-based computations only for nonzero cylinder
size; then the warning chain (end pressure below 10000 mbar; ascent
reserve vs compressibility-adjusted remaining volume) and, in its final
else branch, the minimum-gas computation guarded by lastbottomdp, the
cylinder index, OC mode and a non-recreational deco model. -/
def consumptionFor (ctx : Ctx) (lastbottomdp : Option DP) (gasidx : Nat)
    (cyl : Cylinder) : CylResult :=
  if cyl.size_mliter ≠ 0 then
    if cyl.end_mbar < 10000 then
      { warning := some .moreGasThanAvailable }
    else if reserveLacking ctx cyl then
      { warning := some .notEnoughReserve }
    else
      match lastbottomdp with
      | some lb =>
        if gasidx = lb.cylinderid ∧ ctx.divemode = .oc ∧ ctx.decoModel ≠ .recreational then
          if cyl.start_mbar > mingasPressure ctx cyl lb then
            { mingas_mbar := some (mingasPressure ctx cyl lb),
              mingas_d_pressure := some (mingasMargin ctx cyl lb),
              mingas_shown := true }
          else
            { warning := some .minGasExceedsStart,
              mingas_mbar := some (mingasPressure ctx cyl lb) }
        else {}
      | none => {}
  else {}

/-- The gas-consumption loop over the cylinder table: cylinders are
processed in order until the first one for which cylinder_none holds
(the break at line 454). -/
def consumption (ctx : Ctx) (lastbottomdp : Option DP) : List CylResult :=
  ((ctx.cylinders.takeWhile (fun c => !cylinderNone c)).enum).map
    (fun p => consumptionFor ctx lastbottomdp p.1 p.2)

/-- A pO2 warning row: the offending waypoint and whether it was the
high-pO2 or the low-pO2 message. -/
inductive Po2Warn where
  | highPo2 (dp : DP)
  | lowPo2 (dp : DP)
deriving DecidableEq

/-- Modelled from the spec: the O2 partial pressure computed by
fill_pressures for an open-circuit-style mode is ambient pressure (atm,
from depth_to_atm) times the O2 fraction of the mix. -/
def po2Of (ctx : Ctx) (dp : DP) : ℚ :=
  ctx.depth_atm dp.depth * ((ctx.cyl dp.cylinderid).mix.o2 : ℚ) / 1000

/-- The per-waypoint pO2 check of lines 556-588: the high-pO2 warning
when pO2 exceeds the mode-specific ceiling (bottompo2 for entered
waypoints, decopo2 otherwise, in mbar/1000), else the low-pO2 warning
when pO2 is below 0.16. -/
def po2WarnOf (ctx : Ctx) (dp : DP) : Option Po2Warn :=
  if po2Of ctx dp > ((if dp.entered then ctx.bottompo2 else ctx.decopo2) : ℚ) / 1000 then
    some (.highPo2 dp)
  else if po2Of ctx dp < 16 / 100 then
    some (.lowPo2 dp)
  else none

/-- The pO2 warning pass (lines 551-592): skipped entirely for CCR mode;
otherwise every waypoint of the original plan with nonzero time is
checked. -/
def po2Warnings (ctx : Ctx) (dps : List DP) : List Po2Warn :=
  if ctx.divemode = .ccr then []
  else dps.filterMap (fun dp => if dp.time ≠ 0 then po2WarnOf ctx dp else none)

/-- diveplan_duration (lines 21-31): the maximum waypoint time, rounded
to minutes. -/
def diveplan_duration (dps : List DP) : Int :=
  ((dps.foldl (fun d dp => max d dp.time) 0) + 30) / 60

/-- The banner classification of the report header (lines 118-145). -/
inductive Banner where
  | longLayoff
  | normalInterval
deriving DecidableEq

/-- The structured report built on the full path of add_plan_to_notes
(everything the function prints into the notes buffer, with string
formatting abstracted away; the creation-date text is excluded as
non-deterministic). -/
structure Report where
  banner : Banner
  runtime_min : Int
  variations : Bool
  rows : List Row
  istrimix : Bool
  icd : List IcdDisplay
  icdwarning : Bool
  cns : Int
  otu : Int
  consumption : List CylResult
  po2warnings : List Po2Warn
deriving DecidableEq

/-- The distinct outcomes of one add_plan_to_notes call, as stored into
dive->notes: noPlan never touches the notes (the goto at line 104),
aborted is the single warning line of the error path (lines 107-114),
overlapping is the truncated overlapping-dives banner that returns early
(lines 118-126), and report is the full narrative. -/
inductive PlanResult where
  | aborted
  | overlapping
  | report (r : Report)
deriving DecidableEq

/-- The diveplan inputs (struct diveplan) used by the embedding. -/
structure DivePlan where
  dps : List DP
  surface_interval : Int
deriving DecidableEq

/-- The mutable state that an add_plan_to_notes call can leave behind:
the dive's notes, the recomputed CNS/OTU fields, the static disclaimer
buffer (keyed by deco model), and the minimum_gas field written into the
last bottom waypoint of the plan. -/
structure DiveState where
  notes : Option PlanResult
  cns : Int
  maxcns : Int
  otu : Int
  disclaimerModel : DecoModel
  minimum_gas : Option Int
deriving DecidableEq

/-- The minimum-gas pressure written into lastbottomdp->minimum_gas.mbar
by the consumption loop, if the mingas branch ran for some cylinder. -/
def mingasWritten (results : List CylResult) : Option Int :=
  results.foldl (fun acc r => match r.mingas_mbar with
    | some p => some p
    | none => acc) none

/-- Embedding of add_plan_to_notes (lines 65-601).  The disclaimer buffer
is always rewritten first; an empty waypoint list leaves the notes
untouched; a nonzero error stores the single aborted-computation warning;
a negative surface interval stores the truncated overlapping-dives banner
and returns early; otherwise the full report is assembled from the
waypoint loop, the consumption loop and the pO2 pass, and the dive's
CNS/OTU fields and the plan's minimum_gas field are overwritten. -/
def add_plan_to_notes (ctx : Ctx) (plan : DivePlan) (error : Int)
    (st : DiveState) : DiveState :=
  let st := { st with disclaimerModel := ctx.decoModel }
  if plan.dps = [] then st
  else if error ≠ 0 then { st with notes := some .aborted }
  else if plan.surface_interval < 0 then { st with notes := some .overlapping }
  else
    let loopRes := runLoop ctx plan.dps
    let cons := consumption ctx loopRes.lastbottomdp
    let rep : Report :=
      { banner := if plan.surface_interval ≥ 48 * 60 * 60 then .longLayoff else .normalInterval
        runtime_min := diveplan_duration plan.dps
        variations := ctx.display_variations ∧ ctx.decoModel ≠ .recreational
        rows := loopRes.rows
        istrimix := ctx.cylinders.any (fun c => c.use == .ocGas && c.mix.he > 0)
        icd := loopRes.icd
        icdwarning := loopRes.icdwarning
        cns := ctx.cns
        otu := ctx.otu
        consumption := cons
        po2warnings := po2Warnings ctx plan.dps }
    { st with
      notes := some (.report rep)
      cns := ctx.cns
      maxcns := ctx.maxcns
      otu := ctx.otu
      minimum_gas := match mingasWritten cons with
        | some p => some p
        | none => st.minimum_gas }

/-! Section: Concrete fixtures used by witnesses and counterexamples -/

/-- Air (21/0), in permille. -/
def air : Gasmix := ⟨209, 0⟩

/-- Trimix 21/35, in permille. -/
def trimix2135 : Gasmix := ⟨210, 350⟩

/-- EAN50, in permille. -/
def ean50 : Gasmix := ⟨500, 0⟩

/-- A 10 l cylinder of the given mix, 200 bar start, 100 bar end. -/
def cylOf (m : Gasmix) : Cylinder :=
  { mix := m, start_mbar := 200000, end_mbar := 100000, size_mliter := 10000,
    gas_used := 1000, deco_gas_used := 500, use := .ocGas }

/-- Ideal-gas externals and default preferences: collapsed plan, no
transition display, OC mode, Buehlmann model, one air cylinder.  The
external collaborators are instantiated with their ideal-gas forms
(compressibility 1, isothermal pressure = volume / size, ambient pressure
1 bar + 1 bar per 10 m). -/
def baseCtx : Ctx :=
  { verbatim_plan := false, display_runtime := true, display_duration := true,
    display_transitions := false, display_variations := false,
    bottompo2 := 1400, decopo2 := 1600, sacfactor := 150, problemsolvingtime := 1,
    bottomsac := 20000, divemode := .oc, decoModel := .buehlmann,
    cylinders := [cylOf air],
    depth_mbar := fun d => 1000 + d / 100,
    depth_bar := fun d => 1 + (d : ℚ) / 10000,
    depth_atm := fun d => 1 + (d : ℚ) / 10000,
    zFactor := fun _ _ => 1,
    isothermalPressure := fun _ _ v s => v / s,
    cns := 10, maxcns := 11, otu := 12 }

/-- The number of waypoints with nonzero time delta from their
predecessor (the first waypoint's predecessor time being 0). -/
def nonzeroDeltasFrom : Int → List DP → Nat
  | _, [] => 0
  | prev, dp :: rest =>
    (if dp.time ≠ prev then 1 else 0) + nonzeroDeltasFrom dp.time rest

/-- The number of waypoints of a plan with nonzero time delta. -/
def nonzeroDeltas (dps : List DP) : Nat := nonzeroDeltasFrom 0 dps

/-! Section: C3: the ICD violation threshold -/

/-- C3: an ICD entry is coloured as a violation exactly when
5 x dN2 > -dHe under strict integer comparison; with dHe = -50 the entry
for dN2 = +12 is flagged (60 > 50) and the one for dN2 = +9 is not
(45 < 50). -/
theorem icd_entry_violation_iff (d : IcdData) (t amb : Int) (gf gt : Gasmix) :
    ((add_icd_entry d t amb gf gt).violationRed = true ↔ 5 * d.dN2 > -d.dHe) ∧
    (add_icd_entry ⟨-50, 12⟩ t amb gf gt).violationRed = true ∧
    (add_icd_entry ⟨-50, 9⟩ t amb gf gt).violationRed = false := by
  refine ⟨?_, ?_, ?_⟩ <;> simp [add_icd_entry]

/-! Section: C10: the null dereference at the terminal entered waypoint -/

/-- A two-waypoint plan whose terminal waypoint is manually entered:
a 20 m bottom leg entered by the user with no computed ascent after it. -/
def dpsEnteredLast : List DP :=
  [⟨60, 20000, 0, 0, true⟩, ⟨600, 20000, 0, 0, true⟩]

/-- C10 (code bug): at the terminal waypoint the loop evaluates
dp->entered && !nextdp->entered with nextdp == NULL, because the
conjunction's second operand is reached whenever dp->entered holds; on a
plan whose last waypoint is manually entered this dereferences a null
pointer (undefined behaviour).  The embedding records the null
dereference flag for this concrete plan. -/
theorem lastbottom_null_deref : (runLoop baseCtx dpsEnteredLast).nullDeref = true := by
  decide

/-! Section: C8: leg collapsing -/

/-- A single-gas plan with constant depth except a single final ascent:
an entered bottom waypoint at 20 m followed by two computed constant-depth
waypoints and the final ascent waypoint, all at least 10 s apart. -/
def dpsFlatAscent : List DP :=
  [⟨60, 20000, 0, 0, true⟩, ⟨120, 20000, 0, 0, false⟩,
   ⟨180, 20000, 0, 0, false⟩, ⟨240, 10000, 0, 0, false⟩]

/-- C8 (counterexample): on a four-waypoint single-gas plan with constant
depth except a single final ascent, collapsed mode emits 4 rows (not 2:
the first computed waypoint after the entered one and the waypoint before
the ascent each get a row) and verbatim mode emits 3 lines although all 4
waypoints have nonzero time delta (a constant-depth waypoint whose
successor is at the same depth prints nothing). -/
theorem legcount_flat_ascent_cex :
    dpsFlatAscent.all (fun d => d.cylinderid == 0 && d.setpoint == 0) = true ∧
    (dpsFlatAscent.dropLast.all (fun d => d.depth == 20000) = true ∧
      (dpsFlatAscent.getLast?.map (fun d => d.depth)) = some 10000) ∧
    (runLoop baseCtx dpsFlatAscent).rows.length = 4 ∧
    (runLoop { baseCtx with verbatim_plan := true } dpsFlatAscent).rows.length = 3 ∧
    nonzeroDeltas dpsFlatAscent = 4 := by
  refine ⟨by decide, ⟨by decide, by decide⟩, by decide, by decide, by decide⟩

/-! Section: C2: ICD entry recording and the icdwarning flag -/

/-- The gas changes between consecutive waypoints of a list: pairs
(mix-from, mix-to) whenever the mixes differ. -/
def gasChanges (ctx : Ctx) : List DP → List (Gasmix × Gasmix)
  | a :: b :: rest =>
    (if gasmixDiffers (ctx.mixAt a) (ctx.mixAt b) then [(ctx.mixAt a, ctx.mixAt b)] else []) ++
      gasChanges ctx (b :: rest)
  | _ => []

/-- The gas changes of a plan (between nonzero-time waypoints) whose
departing mix contains helium. -/
def heliumDepartingChanges (ctx : Ctx) (dps : List DP) : List (Gasmix × Gasmix) :=
  (gasChanges ctx (dps.filter (fun d => d.time ≠ 0))).filter (fun p => p.1.he > 0)

/-- Cylinders for a trimix dive: cylinder 0 is trimix 21/35, cylinder 1
is EAN50. -/
def trimixCtx : Ctx := { baseCtx with cylinders := [cylOf trimix2135, cylOf ean50] }

/-- A plan whose single helium-departing gas change is displayed at the
end of an entered constant-depth segment (not an ascent): two entered
waypoints at 30 m on trimix, then the computed final ascent waypoint on
EAN50. -/
def dpsTrailingChange : List DP :=
  [⟨60, 30000, 0, 0, true⟩, ⟨120, 30000, 0, 0, true⟩, ⟨180, 10000, 1, 0, false⟩]

/-- C2 (counterexample): the plan dpsTrailingChange contains exactly one
helium-departing gas change (trimix 21/35 to EAN50), yet the loop records
no ICD entry for it: the trailing gas-change display at the end of an
entered non-ascent segment performs the isobaric-counterdiffusion
bookkeeping only for ascent segments. -/
theorem icd_entry_trailing_change_cex :
    (heliumDepartingChanges trimixCtx dpsTrailingChange).length = 1 ∧
    (runLoop trimixCtx dpsTrailingChange).icd = [] ∧
    (runLoop trimixCtx dpsTrailingChange).icdwarning = false := by
  refine ⟨by decide, by decide, by decide⟩

/-- The invariant that relates the icdwarning flag to the recorded ICD
entries: the flag equals "some recorded entry is coloured red", and every
recorded entry departs from a mix containing helium. -/
def IcdInv (st : LoopState) : Prop :=
  st.icdwarning = st.icd.any (fun e => e.violationRed) ∧
  ∀ e ∈ st.icd, e.gasFrom.he > 0

theorem icdInv_recordIcd {st : LoopState} (t a : Int) {o : Gasmix} (n : Gasmix)
    (ho : o.he > 0) (h : IcdInv st) : IcdInv (recordIcd st t a o n) := by
  obtain ⟨h1, h2⟩ := h
  constructor
  · simp [recordIcd, add_icd_entry, isobaricCounterdiffusion, icdDataOf, h1, Gasmix.n2]
  · intro e he
    simp only [recordIcd, List.mem_append, List.mem_singleton] at he
    rcases he with he | rfl
    · exact h2 e he
    · simpa [add_icd_entry]

theorem icdInv_of_eq {st st' : LoopState} (hw : st'.icdwarning = st.icdwarning)
    (hi : st'.icd = st.icd) (h : IcdInv st) : IcdInv st' := by
  unfold IcdInv at h ⊢
  rw [hw, hi]
  exact h

theorem icdInv_verbatimRows (ctx : Ctx) {st : LoopState} (dp : DP)
    (nextdp inext : Option DP) (h : IcdInv st) :
    IcdInv (verbatimRows ctx st dp nextdp inext) := by
  unfold verbatimRows
  split_ifs <;> exact icdInv_of_eq rfl rfl h

theorem icdInv_verbatimSwitch (ctx : Ctx) {st : LoopState} (dp : DP)
    (nextdp : Option DP) (h : IcdInv st) :
    IcdInv (verbatimSwitch ctx st dp nextdp) := by
  unfold verbatimSwitch
  split_ifs with h1 h2 h3 h4
  · exact icdInv_of_eq rfl rfl h
  · exact icdInv_of_eq rfl rfl (icdInv_recordIcd _ _ _ h4.2 h)
  · exact icdInv_of_eq rfl rfl h
  · exact icdInv_of_eq rfl rfl h
  · exact h

theorem icdInv_collapsedAnnotate (ctx : Ctx) {st : LoopState} (dp : DP)
    (nextdp inext : Option DP) (h : IcdInv st) :
    IcdInv (collapsedAnnotate ctx st dp nextdp inext).1 := by
  unfold collapsedAnnotate
  split_ifs with h1 h2 h3 h4 h5 h6
  · exact icdInv_of_eq rfl rfl h
  · exact icdInv_of_eq rfl rfl (icdInv_recordIcd _ _ _ h3.2 h)
  · exact icdInv_of_eq rfl rfl h
  · exact icdInv_of_eq rfl rfl h
  · exact icdInv_of_eq rfl rfl (icdInv_recordIcd _ _ _ h6 h)
  · exact icdInv_of_eq rfl rfl h
  · exact h

theorem icdInv_collapsedPhase (ctx : Ctx) {st : LoopState} (dp : DP)
    (nextdp inext : Option DP) (h : IcdInv st) :
    IcdInv (collapsedPhase ctx st dp nextdp inext) := by
  unfold collapsedPhase
  split_ifs <;>
    first
      | exact icdInv_of_eq rfl rfl (icdInv_collapsedAnnotate ctx dp nextdp inext h)
      | exact h

theorem icdInv_loopBody (ctx : Ctx) {st : LoopState} (dp : DP)
    (nextdp inext : Option DP) (h : IcdInv st) :
    IcdInv (loopBody ctx st dp nextdp inext).2 := by
  unfold loopBody
  split_ifs with h1 h2 h3
  · exact h
  · exact h
  · exact icdInv_verbatimSwitch ctx dp nextdp
      (icdInv_verbatimRows ctx dp nextdp inext (icdInv_of_eq rfl rfl h))
  · exact icdInv_collapsedPhase ctx dp nextdp inext (icdInv_of_eq rfl rfl h)

theorem icdInv_runLoopAux (ctx : Ctx) :
    ∀ (fuel : Nat) (st : LoopState) (dps : List DP), IcdInv st →
      IcdInv (runLoopAux ctx fuel st dps)
  | 0, _, _, h => h
  | _ + 1, _, [], h => h
  | fuel + 1, st, dp :: rest, h => by
    rw [runLoopAux]
    split
    · exact icdInv_runLoopAux ctx fuel st rest h
    · exact icdInv_runLoopAux ctx fuel _ _ (icdInv_loopBody ctx dp _ _ h)

/-- C2 (amended): for every plan, the icdwarning flag ends up true iff at
least one recorded ICD entry is flagged as a violation, and every
recorded entry departs from a mix containing helium; the counterexample
shows that not every helium-departing gas change records an entry. -/
theorem icdwarning_iff_entry_violates (ctx : Ctx) (dps : List DP) :
    (runLoop ctx dps).icdwarning =
      (runLoop ctx dps).icd.any (fun e => e.violationRed) ∧
    (runLoop ctx dps).icd.all (fun e => decide (e.gasFrom.he > 0)) = true := by
  have h : IcdInv (runLoop ctx dps) :=
    icdInv_runLoopAux ctx dps.length {} dps ⟨rfl, by simp⟩
  refine ⟨h.1, ?_⟩
  rw [List.all_eq_true]
  intro e he
  simpa using h.2 e he

/-! Section: C7: the leg-reduction skip conditions -/

/-- C7: a waypoint is skipped (the loop continues without any state
change, so no report row is produced and no tail update runs) exactly
when either (a) it was not manually entered, it has a real successor, its
depth differs from the loop's last tracked depth, the successor's depth
differs from its own, and there is no gas change before or after it, or
(b) under 10 seconds elapsed since the last tracked report time at
unchanged depth, and it is not the case that a gas change follows with
the immediate successor at a different depth. -/
theorem leg_skip_iff (ctx : Ctx) (st : LoopState) (dp : DP) (nextdp inext : Option DP) :
    ((loopBody ctx st dp nextdp inext).1 = true ↔
      (¬dp.entered ∧ nextdp.isSome ∧ dp.depth ≠ st.lastdepth ∧
        ndepthOf nextdp ≠ dp.depth ∧
        ¬gaschangeBefore st.lastprintgasmix st.lastprintsetpoint ctx dp ∧
        ¬gaschangeAfter ctx dp nextdp) ∨
      ((dp.time - st.lasttime < 10 ∧ st.lastdepth = dp.depth) ∧
        ¬(gaschangeAfter ctx dp nextdp ∧ inext.isSome ∧ dp.depth ≠ ndepthOf inext))) ∧
    ((loopBody ctx st dp nextdp inext).1 = true → (loopBody ctx st dp nextdp inext).2 = st) := by
  simp only [loopBody]
  by_cases h1 : skipUseless ctx st dp nextdp
  · rw [if_pos h1]
    exact ⟨⟨fun _ => Or.inl h1, fun _ => rfl⟩, fun _ => rfl⟩
  · rw [if_neg h1]
    by_cases h2 : skipShort ctx st dp nextdp inext
    · rw [if_pos h2]
      exact ⟨⟨fun _ => Or.inr h2, fun _ => rfl⟩, fun _ => rfl⟩
    · rw [if_neg h2]
      exact ⟨⟨fun hf => (Bool.false_ne_true hf).elim,
              fun hd => (not_or.mpr ⟨h1, h2⟩ hd).elim⟩,
             fun hf => (Bool.false_ne_true hf).elim⟩

/-- A waypoint 5 s after the loop start at the unchanged depth 0, not
entered; its successor shares depth, cylinder and setpoint. -/
def dpQuick : DP := ⟨5, 0, 0, 0, false⟩

/-- The successor of dpQuick. -/
def dpQuickNext : DP := ⟨20, 0, 0, 0, false⟩

theorem leg_skip_iff_witness :
    (loopBody baseCtx {} dpQuick (some dpQuickNext) (some dpQuickNext)).1 = true ∧
    (loopBody baseCtx {} dpQuick (some dpQuickNext) (some dpQuickNext)).2 = {} :=
  have h := leg_skip_iff baseCtx {} dpQuick (some dpQuickNext) (some dpQuickNext)
  have h1 : (loopBody baseCtx {} dpQuick (some dpQuickNext) (some dpQuickNext)).1 = true :=
    h.1.mpr (Or.inr (by decide))
  ⟨h1, h.2 h1⟩

/-! Section: C4: the pO2 warning pass -/

theorem po2WarnOf_eq_high (ctx : Ctx) (x dp : DP) :
    po2WarnOf ctx x = some (.highPo2 dp) ↔
      x = dp ∧ po2Of ctx x > ((if x.entered then ctx.bottompo2 else ctx.decopo2) : ℚ) / 1000 := by
  unfold po2WarnOf
  set C : ℚ := ((if x.entered then ctx.bottompo2 else ctx.decopo2) : ℚ) / 1000 with hC
  split_ifs with h1 h2 <;> simp [*]

theorem po2WarnOf_eq_low (ctx : Ctx) (x dp : DP) :
    po2WarnOf ctx x = some (.lowPo2 dp) ↔
      x = dp ∧
      ¬po2Of ctx x > ((if x.entered then ctx.bottompo2 else ctx.decopo2) : ℚ) / 1000 ∧
      po2Of ctx x < 16 / 100 := by
  unfold po2WarnOf
  set C : ℚ := ((if x.entered then ctx.bottompo2 else ctx.decopo2) : ℚ) / 1000 with hC
  split_ifs with h1 h2 <;> simp [*]

/-- C4 (amended): outside closed-circuit mode, for a nonzero-time
waypoint of the plan, the high-pO2 warning is emitted iff its pO2
strictly exceeds the mode-specific ceiling (bottompo2/1000 for entered
waypoints, decopo2/1000 otherwise), and the low-pO2 warning is emitted
iff its pO2 does not exceed that ceiling and is strictly below 0.16 bar
(the two checks are an if/else chain, so a pO2 both above the ceiling and
below 0.16 yields only the high warning); in closed-circuit mode no pO2
warnings are produced at all. -/
theorem po2_warning_iff (ctx : Ctx) (dps : List DP) (dp : DP)
    (hmode : ctx.divemode ≠ .ccr) (hmem : dp ∈ dps) (ht : dp.time ≠ 0) :
    (Po2Warn.highPo2 dp ∈ po2Warnings ctx dps ↔
      po2Of ctx dp > ((if dp.entered then ctx.bottompo2 else ctx.decopo2) : ℚ) / 1000) ∧
    (Po2Warn.lowPo2 dp ∈ po2Warnings ctx dps ↔
      (¬po2Of ctx dp > ((if dp.entered then ctx.bottompo2 else ctx.decopo2) : ℚ) / 1000 ∧
        po2Of ctx dp < 16 / 100)) ∧
    ∀ c : Ctx, c.divemode = .ccr → po2Warnings c dps = [] := by
  refine ⟨?_, ?_, fun c hc => by simp [po2Warnings, hc]⟩
  · rw [po2Warnings, if_neg hmode]
    simp only [List.mem_filterMap]
    constructor
    · rintro ⟨x, hx, hfx⟩
      rw [ite_eq_iff] at hfx
      rcases hfx with ⟨hxt, hfx⟩ | ⟨_, hfx⟩
      · obtain ⟨rfl, hgt⟩ := (po2WarnOf_eq_high ctx x dp).1 hfx
        exact hgt
      · cases hfx
    · intro hgt
      exact ⟨dp, hmem, by rw [if_pos ht]; exact (po2WarnOf_eq_high ctx dp dp).2 ⟨rfl, hgt⟩⟩
  · rw [po2Warnings, if_neg hmode]
    simp only [List.mem_filterMap]
    constructor
    · rintro ⟨x, hx, hfx⟩
      rw [ite_eq_iff] at hfx
      rcases hfx with ⟨hxt, hfx⟩ | ⟨_, hfx⟩
      · obtain ⟨rfl, hle, hlt⟩ := (po2WarnOf_eq_low ctx x dp).1 hfx
        exact ⟨hle, hlt⟩
      · cases hfx
    · intro hgt
      exact ⟨dp, hmem, by rw [if_pos ht]; exact (po2WarnOf_eq_low ctx dp dp).2 ⟨rfl, hgt.1, hgt.2⟩⟩

/-- An entered surface-level waypoint breathing the 15% mix of
po2CornerCtx. -/
def dpShallow : DP := ⟨60, 0, 0, 0, true⟩

/-- A context with an unusually low entered-pO2 ceiling (bottompo2 =
100 mbar) and a hypoxic 15% mix at the surface: pO2 = 0.15 is both above
the ceiling and below 0.16. -/
def po2CornerCtx : Ctx :=
  { baseCtx with
    bottompo2 := 100
    cylinders := [cylOf ⟨150, 0⟩]
    depth_atm := fun _ => 1 }

/-- C4 (counterexample): for the corner input with pO2 = 0.15 below
0.16 bar at a non-CCR nonzero-time waypoint, no low-pO2 warning is
emitted (the high-pO2 branch of the if/else chain fires instead), so
"low-pO2 warning iff pO2 < 0.16" is false as stated. -/
theorem po2_low_shadowed_cex :
    po2Of po2CornerCtx dpShallow < 16 / 100 ∧
    po2CornerCtx.divemode ≠ .ccr ∧ dpShallow.time ≠ 0 ∧
    Po2Warn.lowPo2 dpShallow ∉ po2Warnings po2CornerCtx [dpShallow] ∧
    po2Warnings po2CornerCtx [dpShallow] = [.highPo2 dpShallow] := by
  have hpo2 : po2Of po2CornerCtx dpShallow = 15 / 100 := by
    norm_num [po2Of, po2CornerCtx, baseCtx, Ctx.mixAt, Ctx.cyl, dpShallow, cylOf]
  have hcond : po2Of po2CornerCtx dpShallow >
      ((if dpShallow.entered then po2CornerCtx.bottompo2 else po2CornerCtx.decopo2) : ℚ) / 1000 := by
    rw [hpo2]
    norm_num [dpShallow, po2CornerCtx, baseCtx]
  have hwarn : po2WarnOf po2CornerCtx dpShallow = some (.highPo2 dpShallow) := by
    rw [po2WarnOf, if_pos hcond]
  have hlist : po2Warnings po2CornerCtx [dpShallow] = [.highPo2 dpShallow] := by
    rw [po2Warnings, if_neg (by decide)]
    simp [hwarn, show dpShallow.time ≠ 0 by decide]
  refine ⟨by rw [hpo2]; norm_num, by decide, by decide, ?_, hlist⟩
  rw [hlist]
  decide

theorem po2_warning_iff_witness :
    baseCtx.divemode ≠ .ccr ∧ dpShallow ∈ [dpShallow] ∧ dpShallow.time ≠ 0 ∧
    ∀ c : Ctx, c.divemode = .ccr → po2Warnings c [dpShallow] = [] :=
  ⟨by decide, by decide, by decide,
    (po2_warning_iff baseCtx [dpShallow] dpShallow (by decide) (by decide) (by decide)).2.2⟩

/-! Section: C6: the per-cylinder insufficient-gas warning chain -/

/-- C6: for a cylinder with nonzero size processed by the consumption
loop, the more-gas-than-available warning is emitted iff the end pressure
is strictly below 10000 mbar; otherwise the not-enough-reserve warning is
emitted iff the compressibility-adjusted remaining volume at end pressure
is below the ascent gas requirement; the checks form an if/else chain so
at most one of the two fires. -/
theorem cylinder_warning_chain (ctx : Ctx) (lb : Option DP) (gasidx : Nat)
    (cyl : Cylinder) (hsz : cyl.size_mliter ≠ 0) :
    ((consumptionFor ctx lb gasidx cyl).warning = some .moreGasThanAvailable ↔
      cyl.end_mbar < 10000) ∧
    ((consumptionFor ctx lb gasidx cyl).warning = some .notEnoughReserve ↔
      (¬cyl.end_mbar < 10000 ∧ reserveLacking ctx cyl)) ∧
    ¬((consumptionFor ctx lb gasidx cyl).warning = some .moreGasThanAvailable ∧
      (consumptionFor ctx lb gasidx cyl).warning = some .notEnoughReserve) := by
  unfold consumptionFor
  rw [if_pos hsz]
  by_cases h1 : cyl.end_mbar < 10000
  · rw [if_pos h1]
    exact ⟨by simp [h1], by simp [h1], by simp⟩
  · rw [if_neg h1]
    by_cases h2 : reserveLacking ctx cyl
    · rw [if_pos h2]
      exact ⟨iff_of_false (by simp) h1, iff_of_true rfl ⟨h1, h2⟩, by simp⟩
    · rw [if_neg h2]
      rcases lb with _ | lb
      · exact ⟨iff_of_false (by simp) h1, iff_of_false (by simp) (fun hc => h2 hc.2), by simp⟩
      · dsimp only
        split_ifs with h3 h4 <;>
          exact ⟨iff_of_false (by simp) h1, iff_of_false (by simp) (fun hc => h2 hc.2), by simp⟩

/-- A cylinder breathed down to 5 bar. -/
def cylLowEnd : Cylinder :=
  { mix := air, start_mbar := 200000, end_mbar := 5000, size_mliter := 10000,
    gas_used := 150000, deco_gas_used := 500, use := .ocGas }

theorem cylinder_warning_chain_witness :
    cylLowEnd.size_mliter ≠ 0 ∧
    ((consumptionFor baseCtx none 0 cylLowEnd).warning = some .moreGasThanAvailable ↔
      cylLowEnd.end_mbar < 10000) :=
  ⟨by decide, (cylinder_warning_chain baseCtx none 0 cylLowEnd (by decide)).1⟩

/-! Section: C1: the minimum-gas computation -/

/-- C1 (amended): the minimum-gas figures are computed exactly under the
guard "nonzero cylinder size, neither the insufficient-gas warning nor
the reserve warning fired, the cylinder is the last bottom waypoint's
cylinder, open-circuit mode, non-recreational deco model"; the required
pressure is the isothermal gas-law pressure of the volume
sacfactor/100 x problemsolvingtime x bottomsac x ambient bar at the last
bottom depth plus sacfactor/100 x deco gas used; if the start pressure
exceeds the required pressure the margin end + deco_pressure - required
(which may be negative) is reported and no warning is emitted, otherwise
the hard minimum-gas warning is emitted and no margin is shown. -/
theorem minimum_gas_spec (ctx : Ctx) (lb : DP) (gasidx : Nat) (cyl : Cylinder) :
    ((consumptionFor ctx (some lb) gasidx cyl).mingas_mbar ≠ none →
      (cyl.size_mliter ≠ 0 ∧ ¬cyl.end_mbar < 10000 ∧ ¬reserveLacking ctx cyl ∧
        gasidx = lb.cylinderid ∧ ctx.divemode = .oc ∧ ctx.decoModel ≠ .recreational)) ∧
    ((cyl.size_mliter ≠ 0 ∧ ¬cyl.end_mbar < 10000 ∧ ¬reserveLacking ctx cyl ∧
        gasidx = lb.cylinderid ∧ ctx.divemode = .oc ∧ ctx.decoModel ≠ .recreational) →
      ((consumptionFor ctx (some lb) gasidx cyl).mingas_mbar =
          some (mingasPressure ctx cyl lb) ∧
        (cyl.start_mbar > mingasPressure ctx cyl lb →
          (consumptionFor ctx (some lb) gasidx cyl).mingas_shown = true ∧
          (consumptionFor ctx (some lb) gasidx cyl).warning = none ∧
          (consumptionFor ctx (some lb) gasidx cyl).mingas_d_pressure =
            some (mingasMargin ctx cyl lb)) ∧
        (¬cyl.start_mbar > mingasPressure ctx cyl lb →
          (consumptionFor ctx (some lb) gasidx cyl).warning = some .minGasExceedsStart ∧
          (consumptionFor ctx (some lb) gasidx cyl).mingas_d_pressure = none ∧
          (consumptionFor ctx (some lb) gasidx cyl).mingas_shown = false))) := by
  unfold consumptionFor
  by_cases hsz : cyl.size_mliter ≠ 0
  · rw [if_pos hsz]
    by_cases h1 : cyl.end_mbar < 10000
    · rw [if_pos h1]
      exact ⟨by simp, fun hg => absurd h1 hg.2.1⟩
    · rw [if_neg h1]
      by_cases h2 : reserveLacking ctx cyl
      · rw [if_pos h2]
        exact ⟨by simp, fun hg => absurd h2 hg.2.2.1⟩
      · rw [if_neg h2]
        dsimp only
        by_cases h3 : gasidx = lb.cylinderid ∧ ctx.divemode = .oc ∧
            ctx.decoModel ≠ .recreational
        · rw [if_pos h3]
          by_cases h4 : cyl.start_mbar > mingasPressure ctx cyl lb
          · rw [if_pos h4]
            exact ⟨fun _ => ⟨hsz, h1, h2, h3.1, h3.2.1, h3.2.2⟩,
                   fun _ => ⟨rfl, fun _ => ⟨rfl, rfl, rfl⟩, fun hn => absurd h4 hn⟩⟩
          · rw [if_neg h4]
            exact ⟨fun _ => ⟨hsz, h1, h2, h3.1, h3.2.1, h3.2.2⟩,
                   fun _ => ⟨rfl, fun hp => absurd hp h4, fun _ => ⟨rfl, rfl, rfl⟩⟩⟩
        · rw [if_neg h3]
          exact ⟨by simp, fun hg => absurd ⟨hg.2.2.2.1, hg.2.2.2.2.1, hg.2.2.2.2.2⟩ h3⟩
  · rw [if_neg hsz]
    exact ⟨by simp, fun hg => absurd hg.1 hsz⟩

/-- The cylinder of the minimum-gas counterexample: 10 l, 200 bar start,
breathed down to exactly 10 bar, with no deco gas use charged to it. -/
def cylMg : Cylinder :=
  { mix := air, start_mbar := 200000, end_mbar := 10000, size_mliter := 10000,
    gas_used := 150000, deco_gas_used := 0, use := .ocGas }

/-- The last bottom waypoint of the minimum-gas counterexample: 40 m. -/
def lbMg : DP := ⟨1200, 40000, 0, 0, true⟩

/-- The context of the minimum-gas counterexample. -/
def mgCtx : Ctx := { baseCtx with cylinders := [cylMg] }

theorem mingasPressure_mg : mingasPressure mgCtx cylMg lbMg = 15000 := by
  norm_num [mingasPressure, mingasVolume, lrint, mgCtx, baseCtx, cylMg, lbMg]

theorem mingasMargin_mg : mingasMargin mgCtx cylMg lbMg = -5000 := by
  have hrem : remainingGas mgCtx cylMg = 100000 := by
    norm_num [remainingGas, lrint, mgCtx, baseCtx, cylMg]
  have hdeco : decoPressureMbar mgCtx cylMg = 0 := by
    rw [decoPressureMbar, hrem]
    norm_num [mgCtx, baseCtx, cylMg]
  rw [mingasMargin, hdeco, mingasPressure_mg]
  norm_num [lrint, cylMg]

/-- C1 (counterexample): for the concrete cylinder cylMg at last bottom
depth 40 m with ideal-gas externals, the start pressure (200 bar) exceeds
the required minimum-gas pressure (15 bar), so the minimum-gas row is
shown with no warning, yet the reported margin
end + deco_pressure - required = -5000 mbar is negative: the claim that a
positive margin is reported whenever start pressure exceeds the
requirement is false. -/
theorem minimum_gas_negative_margin_cex :
    (consumptionFor mgCtx (some lbMg) 0 cylMg).mingas_shown = true ∧
    (consumptionFor mgCtx (some lbMg) 0 cylMg).warning = none ∧
    (consumptionFor mgCtx (some lbMg) 0 cylMg).mingas_d_pressure = some (-5000) ∧
    ¬(0 : Int) < -5000 := by
  have heq : consumptionFor mgCtx (some lbMg) 0 cylMg =
      { mingas_mbar := some (mingasPressure mgCtx cylMg lbMg),
        mingas_d_pressure := some (mingasMargin mgCtx cylMg lbMg),
        mingas_shown := true } := by
    unfold consumptionFor
    rw [if_pos (by decide), if_neg (by decide),
      if_neg (by norm_num [reserveLacking, mgCtx, baseCtx, cylMg])]
    dsimp only
    rw [if_pos (by refine ⟨by decide, by decide, by decide⟩),
      if_pos (by rw [mingasPressure_mg]; decide)]
  rw [heq, mingasMargin_mg]
  exact ⟨rfl, rfl, rfl, by decide⟩

theorem minimum_gas_spec_witness :
    (cylMg.size_mliter ≠ 0 ∧ ¬cylMg.end_mbar < 10000 ∧ ¬reserveLacking mgCtx cylMg ∧
      0 = lbMg.cylinderid ∧ mgCtx.divemode = .oc ∧ mgCtx.decoModel ≠ .recreational) ∧
    (consumptionFor mgCtx (some lbMg) 0 cylMg).mingas_mbar =
      some (mingasPressure mgCtx cylMg lbMg) :=
  have hg : cylMg.size_mliter ≠ 0 ∧ ¬cylMg.end_mbar < 10000 ∧
      ¬reserveLacking mgCtx cylMg ∧ 0 = lbMg.cylinderid ∧
      mgCtx.divemode = .oc ∧ mgCtx.decoModel ≠ .recreational :=
    ⟨by decide, by decide, by norm_num [reserveLacking, mgCtx, baseCtx, cylMg],
     by decide, by decide, by decide⟩
  ⟨hg, ((minimum_gas_spec mgCtx lbMg 0 cylMg).2 hg).1⟩

/-! Section: C5: early exits of add_plan_to_notes -/

/-- C5 (amended): add_plan_to_notes short-circuits to an early, distinct
result in exactly three cases: an empty waypoint list leaves the dive
state untouched apart from the always-rewritten disclaimer buffer (no
partially built report); a nonzero upstream deco error stores the single
aborted-computation warning and nothing else; a negative surface
interval (overlapping dives) stores the truncated overlapping-dives
banner and returns early; in every other case a full report is stored,
and all other anomalies appear only as warning data inside it. -/
theorem early_result_classification (ctx : Ctx) (plan : DivePlan) (error : Int)
    (st : DiveState) :
    (plan.dps = [] → add_plan_to_notes ctx plan error st =
      { st with disclaimerModel := ctx.decoModel }) ∧
    (plan.dps ≠ [] → error ≠ 0 →
      add_plan_to_notes ctx plan error st =
        { st with disclaimerModel := ctx.decoModel, notes := some .aborted }) ∧
    (plan.dps ≠ [] → error = 0 → plan.surface_interval < 0 →
      add_plan_to_notes ctx plan error st =
        { st with disclaimerModel := ctx.decoModel, notes := some .overlapping }) ∧
    (plan.dps ≠ [] → error = 0 → ¬plan.surface_interval < 0 →
      ∃ r : Report, (add_plan_to_notes ctx plan error st).notes = some (.report r)) := by
  unfold add_plan_to_notes
  by_cases h1 : plan.dps = []
  · rw [if_pos h1]
    exact ⟨fun _ => rfl, fun hne => absurd h1 hne, fun hne => absurd h1 hne,
           fun hne => absurd h1 hne⟩
  · rw [if_neg h1]
    by_cases h2 : error ≠ 0
    · rw [if_pos h2]
      exact ⟨fun he => absurd he h1, fun _ _ => rfl,
             fun _ he => absurd he h2, fun _ he => absurd he h2⟩
    · rw [if_neg h2]
      by_cases h3 : plan.surface_interval < 0
      · rw [if_pos h3]
        exact ⟨fun he => absurd he h1, fun _ he => absurd he h2,
               fun _ _ _ => rfl, fun _ _ hs => absurd h3 hs⟩
      · rw [if_neg h3]
        exact ⟨fun he => absurd he h1, fun _ he => absurd he h2,
               fun _ _ hs => absurd hs h3, fun _ _ _ => ⟨_, rfl⟩⟩

/-- The initial dive state used by the C5 fixtures. -/
def st0 : DiveState :=
  { notes := none, cns := 0, maxcns := 0, otu := 0,
    disclaimerModel := .buehlmann, minimum_gas := none }

/-- A one-waypoint plan whose surface interval is negative (overlapping
dives). -/
def planOverlap : DivePlan := { dps := [⟨60, 20000, 0, 0, true⟩], surface_interval := -1 }

/-- C5 (counterexample): with a nonempty waypoint list and no upstream
error, a negative surface interval still produces an early, distinct
result (the overlapping-dives banner) instead of a full report: the claim
that the empty plan and the aborted computation are the only two such
cases is false. -/
theorem overlapping_early_exit_cex :
    planOverlap.dps ≠ [] ∧
    (add_plan_to_notes baseCtx planOverlap 0 st0).notes = some .overlapping ∧
    PlanResult.overlapping ≠ PlanResult.aborted := by
  exact ⟨by decide, by decide, by decide⟩

theorem early_result_classification_witness :
    (planOverlap.dps ≠ [] ∧ (1 : Int) ≠ 0) ∧
    add_plan_to_notes baseCtx planOverlap 1 st0 =
      { st0 with disclaimerModel := baseCtx.decoModel, notes := some .aborted } :=
  ⟨⟨by decide, by decide⟩,
   (early_result_classification baseCtx planOverlap 1 st0).2.1 (by decide) (by decide)⟩

/-! Section: C9: idempotence of report generation -/

/-- C9: calling add_plan_to_notes twice with identical inputs (the
creation-date text being excluded from the embedding as
non-deterministic) produces the same notes and leaves the dive's
recomputed fields (notes, cns, maxcns, otu, the disclaimer buffer, the
plan's minimum_gas field) in the same state as a single call: every field
the call writes depends only on the inputs, never on the prior state. -/
theorem add_plan_to_notes_idempotent (ctx : Ctx) (plan : DivePlan) (error : Int)
    (st : DiveState) :
    add_plan_to_notes ctx plan error (add_plan_to_notes ctx plan error st) =
      add_plan_to_notes ctx plan error st := by
  unfold add_plan_to_notes
  by_cases h1 : plan.dps = []
  · rw [if_pos h1, if_pos h1]
  · rw [if_neg h1, if_neg h1]
    by_cases h2 : error ≠ 0
    · rw [if_pos h2, if_pos h2]
    · rw [if_neg h2, if_neg h2]
      by_cases h3 : plan.surface_interval < 0
      · rw [if_pos h3, if_pos h3]
      · rw [if_neg h3, if_neg h3]
        rcases hmw : mingasWritten (consumption ctx (runLoop ctx plan.dps).lastbottomdp)
          with _ | p <;> simp [hmw]

/-! Section: C8 (amended): evaluation lemmas for the loop, and the two-waypoint
leg-count theorem -/

theorem runLoopAux_nil (ctx : Ctx) (fuel : Nat) (st : LoopState) :
    runLoopAux ctx fuel st [] = st := by
  cases fuel <;> rfl

theorem runLoopAux_cons_ne (ctx : Ctx) (fuel : Nat) (st : LoopState) (dp : DP)
    (rest : List DP) (h : ¬dp.time = 0) :
    runLoopAux ctx (fuel + 1) st (dp :: rest) =
      runLoopAux ctx fuel
        ((loopBody ctx st dp (rest.dropWhile (fun x => x.time == 0)).head? rest.head?).2)
        (rest.dropWhile (fun x => x.time == 0)) := by
  simp only [runLoopAux]
  rw [if_neg h]

/-- The loop on a two-waypoint plan with nonzero times is the two
corresponding loopBody steps. -/
theorem runLoop_two (ctx : Ctx) (a b : DP) (ha : ¬a.time = 0) (hb : ¬b.time = 0) :
    runLoop ctx [a, b] =
      (loopBody ctx (loopBody ctx {} a (some b) (some b)).2 b none none).2 := by
  have hdw : List.dropWhile (fun x => x.time == 0) [b] = [b] := by
    have hbeq : (b.time == 0) = false := beq_eq_false_iff_ne.mpr hb
    simp [List.dropWhile, hbeq]
  simp only [runLoop, List.length_cons, List.length_nil]
  rw [runLoopAux_cons_ne ctx (0 + 1) {} a [b] ha]
  rw [hdw]
  simp only [List.head?_cons]
  rw [runLoopAux_cons_ne ctx 0 _ b [] hb]
  simp only [List.dropWhile_nil, List.head?_nil]
  exact runLoopAux_nil ctx 0 _

/-- C8 (amended): for every two-waypoint plan consisting of a manually
entered bottom waypoint (time t1 > 0, depth d1 > 0) followed by a single
computed final ascent waypoint (depth d2 < d1) at least 10 s later, on a
single gas with no setpoint changes, collapsed mode emits exactly 2 rows
(the bottom stay and the ascent) and verbatim mode emits one output line
per waypoint with nonzero time delta, i.e. also 2; with additional
constant-depth waypoints between bottom and ascent the counts differ from
the claim (see the counterexample). -/
theorem legcount_two_waypoints (ctx : Ctx) (t1 t2 d1 d2 : Int) (cid : Nat)
    (h1 : 0 < t1) (h2 : t1 + 10 ≤ t2) (h3 : 0 < d1) (h4 : d2 < d1) :
    (runLoop { ctx with verbatim_plan := false }
        [⟨t1, d1, cid, 0, true⟩, ⟨t2, d2, cid, 0, false⟩]).rows.length = 2 ∧
    (runLoop { ctx with verbatim_plan := true }
        [⟨t1, d1, cid, 0, true⟩, ⟨t2, d2, cid, 0, false⟩]).rows.length = 2 ∧
    nonzeroDeltas [⟨t1, d1, cid, 0, true⟩, ⟨t2, d2, cid, 0, false⟩] = 2 := by
  have ha : ¬((⟨t1, d1, cid, 0, true⟩ : DP).time = 0) := by simp only; omega
  have hb : ¬((⟨t2, d2, cid, 0, false⟩ : DP).time = 0) := by simp only; omega
  have e1 : ¬((0:Int) = d1) := by omega
  have e2 : ¬(d1 < (0:Int)) := by omega
  have e4 : ¬(d1 = d2) := by omega
  have e5 : ((-1 : Int) != 0) = true := by decide
  have e6 : ¬((-1:Int) > 0) := by decide
  have e7 : ¬(t2 - t1 < 10) := by omega
  have e8 : ¬(d1 = (0:Int)) := by omega
  have e9 : ¬(d2 = d1) := by omega
  refine ⟨?_, ?_, ?_⟩
  · rw [runLoop_two _ _ _ ha hb]
    have hstep1 : (loopBody { ctx with verbatim_plan := false } {} ⟨t1, d1, cid, 0, true⟩
        (some ⟨t2, d2, cid, 0, false⟩) (some ⟨t2, d2, cid, 0, false⟩)).2 =
        { lastdepth := d1, lasttime := t1, lastsetpoint := 0, newdepth := d1,
          lastprintdepth := d1, lastprintsetpoint := 0,
          lastprintgasmix := (Ctx.cyl { ctx with verbatim_plan := false } cid).mix,
          lastentered := true, lastbottomdp := some ⟨t1, d1, cid, 0, true⟩,
          icdwarning := false, nullDeref := false,
          rows := [.leg .descent d1 t1
            (some ((Ctx.cyl { ctx with verbatim_plan := false } cid).mix, none))],
          icd := [] } := by
      simp [loopBody, skipUseless, skipShort, trackLastBottom, collapsedPhase,
        collapsedAnnotate, trailingChangeShown, collapsedEmit, tailUpdate, recordIcd,
        gaschangeAfter, gaschangeBefore, Ctx.mixAt, ndepthOf, nenteredOf, nsetpointOf,
        newGasmixOf, gasmixDiffers, spOf, e1, e2, h3, e4, e5, e6]
    rw [hstep1]
    simp [loopBody, skipUseless, skipShort, trackLastBottom, collapsedPhase,
      collapsedAnnotate, trailingChangeShown, collapsedEmit, tailUpdate, recordIcd,
      gaschangeAfter, gaschangeBefore, Ctx.mixAt, ndepthOf, nenteredOf, nsetpointOf,
      newGasmixOf, gasmixDiffers, spOf, e7, h4]
  · rw [runLoop_two _ _ _ ha hb]
    have hstep1 : (loopBody { ctx with verbatim_plan := true } {} ⟨t1, d1, cid, 0, true⟩
        (some ⟨t2, d2, cid, 0, false⟩) (some ⟨t2, d2, cid, 0, false⟩)).2 =
        { lastdepth := d1, lasttime := t1, lastsetpoint := 0, newdepth := d1,
          lastprintdepth := d1, lastprintsetpoint := -1,
          lastprintgasmix := ⟨-1, -1⟩,
          lastentered := true, lastbottomdp := some ⟨t1, d1, cid, 0, true⟩,
          icdwarning := false, nullDeref := false,
          rows := [.transition d1 t1 none],
          icd := [] } := by
      simp [loopBody, skipUseless, skipShort, trackLastBottom, verbatimRows,
        verbatimSwitch, tailUpdate, recordIcd,
        gaschangeAfter, gaschangeBefore, Ctx.mixAt, ndepthOf, nenteredOf, nsetpointOf,
        newGasmixOf, gasmixDiffers, spOf, e1, e8]
    rw [hstep1]
    simp [loopBody, skipUseless, skipShort, trackLastBottom, verbatimRows,
      verbatimSwitch, tailUpdate, recordIcd,
      gaschangeAfter, gaschangeBefore, Ctx.mixAt, ndepthOf, nenteredOf, nsetpointOf,
      newGasmixOf, gasmixDiffers, spOf, e7, e9]
  · simp [nonzeroDeltas, nonzeroDeltasFrom, show ¬(t1 = 0) by omega,
      show ¬(t2 = t1) by omega]

theorem legcount_two_waypoints_witness :
    ((0:Int) < 60 ∧ (60:Int) + 10 ≤ 600 ∧ (0:Int) < 20000 ∧ (10000:Int) < 20000) ∧
    (runLoop { baseCtx with verbatim_plan := false }
        [⟨60, 20000, 0, 0, true⟩, ⟨600, 10000, 0, 0, false⟩]).rows.length = 2 :=
  ⟨⟨by decide, by decide, by decide, by decide⟩,
   (legcount_two_waypoints baseCtx 60 600 20000 10000 0
      (by decide) (by decide) (by decide) (by decide)).1⟩

end PlannerNotes
